import Mathlib

/-!
Verification of the rate-limit plugin of `elysia-plugins`
(src/example/index.ts, `rateLimitPlugin` and its helpers).

The embedding is shallow: times are naturals (milliseconds), the LRU cache
backing `DefaultRateLimitContext` is modelled as an association list with
first-match lookup (its `set` prepends the fresh entry and drops the stale
one, matching the observable get/set contract of the cache for the keys the
claims touch; capacity and physical TTL are recorded in the construction
model below), the mutable `set` object of the Elysia handler is a record of
an optional status and a header association list, and the externally
supplied key generator and skip predicate are modelled by their outcome,
an `Except` value, since a JavaScript function application either returns
a value or throws.
-/

namespace ElysiaRateLimit

/-- A stored window counter, `{ count, reset }` in the source. -/
structure WindowCounter where
  count : Nat
  reset : Nat
deriving DecidableEq, Repr

/-- The counter store: association list from client key to counter,
modelling the observable `get`/`set` contract of `DefaultRateLimitContext`. -/
abbrev Store := List (String × WindowCounter)

/-- Lookup, `context.get(key)`: first entry for the key, if any. -/
def storeGet (st : Store) (key : String) : Option WindowCounter :=
  (st.find? (fun p => p.1 = key)).map (fun p => p.2)

/-- Update, `context.set(key, value)`: insert or overwrite, refreshing recency
(the fresh entry goes to the front, the stale one is dropped). -/
def storeSet (st : Store) (key : String) (v : WindowCounter) : Store :=
  (key, v) :: st.filter (fun p => p.1 ≠ key)

/-- The mutable `set` object of the handler: response status (if assigned)
and response headers. Header assignment `set.headers[n] = v` is modelled by
prepending, with first-match lookup, which is observationally the same as
object-key overwriting for the distinct header names the plugin writes. -/
structure SetState where
  status : Option Nat
  headers : List (String × String)
deriving DecidableEq, Repr

/-- A `set` object no middleware has touched yet. -/
def emptySet : SetState := { status := none, headers := [] }

/-- Assignment `set.headers[name] = value`. -/
def setHeader (s : SetState) (name value : String) : SetState :=
  { s with headers := (name, value) :: s.headers }

/-- Observation of a header value on a header list. -/
def lookupHeader (hs : List (String × String)) (name : String) : Option String :=
  (hs.find? (fun p => p.1 = name)).map (fun p => p.2)

/-- Observation of a header value on a `set` object. -/
def headerGet (s : SetState) (name : String) : Option String :=
  lookupHeader s.headers name

/-- What the `onRequest` handler returned: `undefined` (the request
proceeds) or the error response body (the request is short-circuited). -/
inductive Outcome where
  | proceed
  | reject (body : String)
deriving DecidableEq, Repr

/-- The observable effect of one handler run: the store after the run, the
`set` object after the run, and the returned value. -/
structure RequestResult where
  store : Store
  setState : SetState
  outcome : Outcome
deriving DecidableEq, Repr

/-- Ceiling division, `Math.ceil(n / 1000)`, for a natural number of
milliseconds. -/
def ceilDiv1000 (n : Nat) : Nat := (n + 999) / 1000

/-- Clamped difference, `Math.max(0, maxRequests - count)`: JavaScript
subtraction over the integers, clamped at zero. -/
def remainingOf (maxRequests count : Nat) : Nat :=
  (max 0 ((maxRequests : Int) - (count : Int))).toNat

/-- The rate-limiting core of the `onRequest` handler
(src/example/index.ts lines 82-108), after the skip check has come back
false: window bookkeeping, store write-back, header emission and verdict.
`er` is the resolved error response body (`errorResponse` applied to the
request when it is a function, the string itself otherwise); the `warn`
log event on rejection is an external logging effect and is not part of
the returned state. -/
def rateLimitStep (maxRequests duration : Nat) (er key : String)
    (now : Nat) (st : Store) (s : SetState) : RequestResult :=
  let resetTime := now + duration
  let entry0 : WindowCounter :=
    match storeGet st key with
    | none => { count := 0, reset := resetTime }
    | some e => if now > e.reset then { count := 0, reset := resetTime } else e
  let entry : WindowCounter := { entry0 with count := entry0.count + 1 }
  let st1 := storeSet st key entry
  let s1 := setHeader s "RateLimit-Limit" (toString maxRequests)
  let s2 := setHeader s1 "RateLimit-Remaining" (toString (remainingOf maxRequests entry.count))
  let s3 := setHeader s2 "RateLimit-Reset" (toString (ceilDiv1000 entry.reset))
  if entry.count > maxRequests then
    let s4 := setHeader { s3 with status := some 429 } "Retry-After" (toString (ceilDiv1000 duration))
    { store := st1, setState := s4, outcome := Outcome.reject er }
  else
    { store := st1, setState := s3, outcome := Outcome.proceed }

/-- The whole `onRequest` handler (src/example/index.ts lines 78-115).
`keyGen` is the outcome of `keyGenerator(request)` and `skp` the outcome of
`skip(request, key)`; either may be an exception `e`, which the handler
does not catch, so it propagates and the store and `set` object are left
as they were. -/
def onRequest {E : Type} (maxRequests duration : Nat) (er : String)
    (keyGen : Except E String) (skp : String → Except E Bool)
    (now : Nat) (st : Store) (s : SetState) :
    Store × SetState × Except E Outcome :=
  match keyGen with
  | Except.error e => (st, s, Except.error e)
  | Except.ok key =>
    match skp key with
    | Except.error e => (st, s, Except.error e)
    | Except.ok true => (st, s, Except.ok Outcome.proceed)
    | Except.ok false =>
      let r := rateLimitStep maxRequests duration er key now st s
      (r.store, r.setState, Except.ok r.outcome)

/-- The counter produced by the window bookkeeping of `rateLimitStep` for
the given prior store, key and time: a fresh window (count 0, reset
`now + duration`) when the key is absent or `now` is strictly past the
stored reset, the stored counter otherwise; then the increment. -/
def nextEntry (st : Store) (key : String) (now duration : Nat) : WindowCounter :=
  match storeGet st key with
  | none => { count := 1, reset := now + duration }
  | some e =>
    if now > e.reset then { count := 1, reset := now + duration }
    else { e with count := e.count + 1 }

/-- The construction-time configuration a `rateLimitPlugin(options)` call
settles on (src/example/index.ts lines 54-76): option defaults
`maxRequests = 100`, `duration = 60000`, and the `DefaultRateLimitContext`
it builds, whose LRU cache is created with `max = 10000` entries and a
hard-coded `ttl` of one hour (lines 38-43). -/
structure PluginConfig where
  maxRequests : Nat
  duration : Nat
  storeCapacity : Nat
  storeTTL : Nat
deriving DecidableEq, Repr

/-- Plugin construction. The source destructures the options with
defaults and constructs the context; no validation of any option
combination is performed anywhere on this path, so construction always
succeeds. The `Except` codomain records that construction is the only
place a configuration could be rejected. -/
def rateLimitPlugin (maxRequests? duration? : Option Nat) :
    Except String PluginConfig :=
  Except.ok
    { maxRequests := maxRequests?.getD 100
      duration := duration?.getD (60 * 1000)
      storeCapacity := 10000
      storeTTL := 1 * 3600 * 1000 }

/-- JavaScript `String.prototype.toLowerCase()`, modelled characterwise. -/
def jsToLower (s : String) : String := ⟨s.data.map Char.toLower⟩

/-- JavaScript `String.prototype.trim()`: drop whitespace from both ends. -/
def jsTrim (s : String) : String :=
  ⟨((s.data.dropWhile fun c => c.isWhitespace).reverse.dropWhile
      fun c => c.isWhitespace).reverse⟩

/-- The header names the default key generator matches
(src/example/index.ts line 59), including the misspelling
`x-forwareded-for`. -/
def forwardHeaderNames : List String :=
  ["x-forwareded-for", "x-real-ip", "forwarded"]

/-- The source's `defaultKeyGenerator` (src/example/index.ts lines 55-65): filter the
request headers to those whose trimmed, lowercased name is in
`forwardHeaderNames`, take the first value, default `"unknown"`. -/
def defaultKeyGenerator (headers : List (String × String)) : String :=
  ((((headers.filter
        (fun p => jsToLower (jsTrim p.1) ∈ forwardHeaderNames)).map
      (fun p => p.2)).head?).getD "unknown")

/-! Helper lemmas. -/

theorem storeGet_storeSet_self (st : Store) (key : String) (v : WindowCounter) :
    storeGet (storeSet st key v) key = some v := by
  simp [storeGet, storeSet, List.find?]

theorem lookupHeader_cons (hs : List (String × String)) (n m v : String) :
    lookupHeader ((n, v) :: hs) m = if n = m then some v else lookupHeader hs m := by
  by_cases h : n = m <;> simp [lookupHeader, List.find?, h]

/-- The step function, re-expressed through `nextEntry`: the window
bookkeeping of lines 85-90 produces exactly `nextEntry st key now d`, and
the rest of the handler is a function of that counter. -/
theorem rateLimitStep_eq (m d : Nat) (er key : String) (now : Nat)
    (st : Store) (s : SetState) :
    rateLimitStep m d er key now st s =
      if (nextEntry st key now d).count > m then
        { store := storeSet st key (nextEntry st key now d)
          setState := setHeader
            { setHeader (setHeader (setHeader s "RateLimit-Limit" (toString m))
                "RateLimit-Remaining"
                (toString (remainingOf m (nextEntry st key now d).count)))
                "RateLimit-Reset" (toString (ceilDiv1000 (nextEntry st key now d).reset))
              with status := some 429 }
            "Retry-After" (toString (ceilDiv1000 d))
          outcome := Outcome.reject er }
      else
        { store := storeSet st key (nextEntry st key now d)
          setState := setHeader (setHeader (setHeader s "RateLimit-Limit" (toString m))
            "RateLimit-Remaining" (toString (remainingOf m (nextEntry st key now d).count)))
            "RateLimit-Reset" (toString (ceilDiv1000 (nextEntry st key now d).reset))
          outcome := Outcome.proceed } := by
  unfold rateLimitStep nextEntry
  cases hg : storeGet st key with
  | none => rfl
  | some e => by_cases h : now > e.reset <;> simp [h]

/-! Claim theorems. -/

/-- Claim C1: on every non-skipped request, if the store has no entry for
the derived key, or `now` is strictly greater than the stored reset
timestamp, a fresh window starts with count 0 and reset `now + duration`,
the count is incremented by 1 (all of which `nextEntry` expresses), the
result is written to the store, and the request is admitted if and only if
the resulting count is at most `maxRequests`. -/
theorem window_accounting_correct (m d : Nat) (er key : String) (now : Nat)
    (st : Store) (s : SetState) :
    storeGet (rateLimitStep m d er key now st s).store key =
      some (nextEntry st key now d) ∧
    ((rateLimitStep m d er key now st s).outcome = Outcome.proceed ↔
      (nextEntry st key now d).count ≤ m) := by
  rw [rateLimitStep_eq]
  by_cases h : (nextEntry st key now d).count > m <;>
    simp [h, storeGet_storeSet_self]
  all_goals omega

/-- Claim C2: the request that brings the window count to exactly
`maxRequests` is admitted; every request that brings the count above
`maxRequests` is rejected with status 429 and a Retry-After header; and the
incremented counter is always written back to the store, past the limit
and without clamping, whatever the verdict. -/
theorem limit_boundary_no_clamp (m d : Nat) (er key : String) (now : Nat)
    (st : Store) (s : SetState) :
    ((nextEntry st key now d).count = m →
      (rateLimitStep m d er key now st s).outcome = Outcome.proceed) ∧
    ((nextEntry st key now d).count > m →
      (rateLimitStep m d er key now st s).outcome = Outcome.reject er ∧
      (rateLimitStep m d er key now st s).setState.status = some 429 ∧
      headerGet (rateLimitStep m d er key now st s).setState "Retry-After" =
        some (toString (ceilDiv1000 d))) ∧
    (storeGet (rateLimitStep m d er key now st s).store key).map WindowCounter.count =
      some (nextEntry st key now d).count := by
  rw [rateLimitStep_eq]
  by_cases h : (nextEntry st key now d).count > m <;>
    simp [h, storeGet_storeSet_self, headerGet, setHeader, lookupHeader_cons]
  all_goals omega

/-- Claim C2 witness: with limit 3 and a stored count of 3, the next
request in the window is rejected with status 429, Retry-After is set, and
the stored count becomes 4. -/
theorem limit_boundary_no_clamp_witness :
    (rateLimitStep 3 1000 "Too many requests" "k" 0 [("k", ⟨3, 5000⟩)] emptySet).outcome =
      Outcome.reject "Too many requests" ∧
    (rateLimitStep 3 1000 "Too many requests" "k" 0 [("k", ⟨3, 5000⟩)] emptySet).setState.status =
      some 429 ∧
    (storeGet (rateLimitStep 3 1000 "Too many requests" "k" 0
        [("k", ⟨3, 5000⟩)] emptySet).store "k").map WindowCounter.count = some 4 := by
  have h := limit_boundary_no_clamp 3 1000 "Too many requests" "k" 0 [("k", ⟨3, 5000⟩)] emptySet
  have h2 := h.2.1 (by decide)
  exact ⟨h2.1, h2.2.1, h.2.2⟩

/-- Claim C4: on every non-skipped request, admitted or not, the headers
RateLimit-Limit, RateLimit-Remaining and RateLimit-Reset hold the decimal
strings of `maxRequests`, `max(0, maxRequests - count)` and
`ceil(reset / 1000)`; Retry-After is set to the decimal string of
`ceil(duration / 1000)` exactly when the request is rejected, and is left
untouched when it is admitted. -/
theorem header_postcondition (m d : Nat) (er key : String) (now : Nat)
    (st : Store) (s : SetState) :
    headerGet (rateLimitStep m d er key now st s).setState "RateLimit-Limit" =
      some (toString m) ∧
    headerGet (rateLimitStep m d er key now st s).setState "RateLimit-Remaining" =
      some (toString (remainingOf m (nextEntry st key now d).count)) ∧
    headerGet (rateLimitStep m d er key now st s).setState "RateLimit-Reset" =
      some (toString (ceilDiv1000 (nextEntry st key now d).reset)) ∧
    ((rateLimitStep m d er key now st s).outcome = Outcome.proceed →
      headerGet (rateLimitStep m d er key now st s).setState "Retry-After" =
        headerGet s "Retry-After") ∧
    ((rateLimitStep m d er key now st s).outcome ≠ Outcome.proceed →
      headerGet (rateLimitStep m d er key now st s).setState "Retry-After" =
        some (toString (ceilDiv1000 d))) := by
  rw [rateLimitStep_eq]
  by_cases h : (nextEntry st key now d).count > m <;>
    simp [h, headerGet, setHeader, lookupHeader_cons]

/-- Claim C4 witness: second request of a window with limit 3, duration
60000: RateLimit-Limit is "3", RateLimit-Remaining is "1", RateLimit-Reset
is "5" (reset at 5000 ms), and Retry-After stays unset on admission. -/
theorem header_postcondition_witness :
    headerGet (rateLimitStep 3 60000 "e" "k" 100 [("k", ⟨1, 5000⟩)] emptySet).setState
      "RateLimit-Limit" = some "3" ∧
    headerGet (rateLimitStep 3 60000 "e" "k" 100 [("k", ⟨1, 5000⟩)] emptySet).setState
      "RateLimit-Remaining" = some "1" ∧
    headerGet (rateLimitStep 3 60000 "e" "k" 100 [("k", ⟨1, 5000⟩)] emptySet).setState
      "RateLimit-Reset" = some "5" ∧
    headerGet (rateLimitStep 3 60000 "e" "k" 100 [("k", ⟨1, 5000⟩)] emptySet).setState
      "Retry-After" = none := by
  have h := header_postcondition 3 60000 "e" "k" 100 [("k", ⟨1, 5000⟩)] emptySet
  refine ⟨h.1, ?_, ?_, ?_⟩
  · have := h.2.1
    simpa using this
  · have := h.2.2.1
    simpa using this
  · have := h.2.2.2.1 (by decide)
    simpa [emptySet, headerGet, lookupHeader] using this

/-- Shared helper: the step always writes `nextEntry` back for the key. -/
theorem storeGet_rateLimitStep (m d : Nat) (er key : String) (now : Nat)
    (st : Store) (s : SetState) :
    storeGet (rateLimitStep m d er key now st s).store key =
      some (nextEntry st key now d) := by
  rw [rateLimitStep_eq]
  by_cases h : (nextEntry st key now d).count > m <;>
    simp [h, storeGet_storeSet_self]

/-- Claim C5: when the skip predicate returns true, the handler returns
before touching anything: the store is unchanged, no header is set, the
status is untouched, and the request proceeds. -/
theorem skip_bypass {E : Type} (m d : Nat) (er : String)
    (keyGen : Except E String) (skp : String → Except E Bool)
    (now : Nat) (st : Store) (s : SetState) (key : String)
    (hk : keyGen = Except.ok key) (hsk : skp key = Except.ok true) :
    onRequest m d er keyGen skp now st s = (st, s, Except.ok Outcome.proceed) := by
  subst hk
  simp [onRequest, hsk]

/-- Claim C5 witness: a skipped request at a concrete store leaves the
store, the headers and the status exactly as they were and proceeds. -/
theorem skip_bypass_witness :
    onRequest 3 1000 "e" (Except.ok "k" : Except Unit String)
      (fun _ => Except.ok true) 7 [("k", ⟨2, 100⟩)] emptySet =
      ([("k", ⟨2, 100⟩)], emptySet, Except.ok Outcome.proceed) :=
  skip_bypass 3 1000 "e" _ _ 7 [("k", ⟨2, 100⟩)] emptySet "k" rfl rfl

/-- Claim C7: if key derivation or the skip predicate throws, the
exception propagates unmodified and the store and the `set` object are
exactly as they were: no read, no increment, no write, no header, no
status change. -/
theorem upstream_failure_atomic {E : Type} (m d : Nat) (er : String)
    (keyGen : Except E String) (skp : String → Except E Bool)
    (now : Nat) (st : Store) (s : SetState) (e : E)
    (h : keyGen = Except.error e ∨
      ∃ key, keyGen = Except.ok key ∧ skp key = Except.error e) :
    onRequest m d er keyGen skp now st s = (st, s, Except.error e) := by
  rcases h with h | ⟨key, hk, hsk⟩
  · subst h; rfl
  · subst hk; simp [onRequest, hsk]

/-- Claim C7 witness: a throwing key generator propagates its exception
with the store and `set` object untouched. -/
theorem upstream_failure_atomic_witness :
    onRequest 3 1000 "e" (Except.error "boom" : Except String String)
      (fun _ => Except.ok false) 7 [("k", ⟨2, 100⟩)] emptySet =
      ([("k", ⟨2, 100⟩)], emptySet, Except.error "boom") :=
  upstream_failure_atomic 3 1000 "e" _ _ 7 [("k", ⟨2, 100⟩)] emptySet "boom" (Or.inl rfl)

/-- Claim C6 counterexample: the stored counter has count 1 and reset
timestamp 1000; a request arriving at exactly now = 1000 does not start a
fresh window as the claim requires (count 1, reset 2000): the old window
is kept and its count becomes 2. -/
theorem window_boundary_counterexample :
    storeGet (rateLimitStep 3 1000 "e" "k" 1000 [("k", ⟨1, 1000⟩)] emptySet).store "k" =
      some ⟨2, 1000⟩ ∧
    storeGet (rateLimitStep 3 1000 "e" "k" 1000 [("k", ⟨1, 1000⟩)] emptySet).store "k" ≠
      some ⟨1, 2000⟩ := by
  decide

/-- Claim C6 amended: the window is inclusive of its reset instant, i.e.
it is the closed interval from windowStart to windowStart + duration. A
request arriving exactly at the stored reset timestamp is still inside the
old window and increments its count; only a request arriving strictly
after the reset timestamp starts a fresh window with count 1. -/
theorem window_boundary_amended (m d : Nat) (er key : String) (now : Nat)
    (st : Store) (s : SetState) (e : WindowCounter)
    (he : storeGet st key = some e) :
    (now = e.reset →
      storeGet (rateLimitStep m d er key now st s).store key =
        some ⟨e.count + 1, e.reset⟩) ∧
    (now > e.reset →
      storeGet (rateLimitStep m d er key now st s).store key =
        some ⟨1, now + d⟩) := by
  rw [storeGet_rateLimitStep]
  constructor
  · intro hn
    simp [nextEntry, he, hn]
  · intro hn
    simp [nextEntry, he, hn]

/-- Claim C6 amended witness: at exactly the reset instant (1500) the
count goes from 1 to 2; strictly after it (2000) a fresh window starts
with count 1 and reset 3000. -/
theorem window_boundary_amended_witness :
    storeGet (rateLimitStep 3 1000 "e" "k" 1500 [("k", ⟨1, 1500⟩)] emptySet).store "k" =
      some ⟨2, 1500⟩ ∧
    storeGet (rateLimitStep 3 1000 "e" "k" 2000 [("k", ⟨1, 1500⟩)] emptySet).store "k" =
      some ⟨1, 3000⟩ :=
  ⟨(window_boundary_amended 3 1000 "e" "k" 1500 [("k", ⟨1, 1500⟩)] emptySet
      ⟨1, 1500⟩ (by decide)).1 rfl,
   (window_boundary_amended 3 1000 "e" "k" 2000 [("k", ⟨1, 1500⟩)] emptySet
      ⟨1, 1500⟩ (by decide)).2 (by decide)⟩

/-- Claim C3 (code bug): plugin construction performs no validation at
all. The store TTL is hard-coded to 3600000 ms while the window duration
is configurable, so an options object with a two-hour window is accepted
at construction even though its store TTL is smaller than its window
duration — the invariant the claim requires construction to enforce. -/
theorem construction_accepts_ttl_below_duration :
    ∃ cfg, rateLimitPlugin none (some 7200000) = Except.ok cfg ∧
      cfg.storeTTL < cfg.duration :=
  ⟨_, rfl, by decide⟩

/-- Claim C8: with limit 3 and window 1000 ms, four requests for one key
at t = 0 give verdicts admit, admit, admit, reject; the fourth carries
RateLimit-Remaining "0", status 429 and Retry-After "1"; a request at
t = 1001 starts a new window and is admitted with RateLimit-Remaining
"2". -/
theorem concrete_scenario :
    (let r1 := rateLimitStep 3 1000 "Too many requests" "k" 0 [] emptySet
     let r2 := rateLimitStep 3 1000 "Too many requests" "k" 0 r1.store emptySet
     let r3 := rateLimitStep 3 1000 "Too many requests" "k" 0 r2.store emptySet
     let r4 := rateLimitStep 3 1000 "Too many requests" "k" 0 r3.store emptySet
     let r5 := rateLimitStep 3 1000 "Too many requests" "k" 1001 r4.store emptySet
     r1.outcome = Outcome.proceed ∧
     r2.outcome = Outcome.proceed ∧
     r3.outcome = Outcome.proceed ∧
     r4.outcome = Outcome.reject "Too many requests" ∧
     headerGet r4.setState "RateLimit-Remaining" = some "0" ∧
     r4.setState.status = some 429 ∧
     headerGet r4.setState "Retry-After" = some "1" ∧
     r5.outcome = Outcome.proceed ∧
     headerGet r5.setState "RateLimit-Remaining" = some "2") := by
  decide

/-- Claim C10: the default key generator matches only header names whose
trimmed, lowercased form is one of the three entries of
`forwardHeaderNames` — which contain the misspelling `x-forwareded-for`
but not `x-forwarded-for` — so a request each of whose header names
normalizes either to the correctly spelled `x-forwarded-for` or to
something outside that list yields the sentinel key "unknown". -/
theorem default_key_generator_unknown (headers : List (String × String))
    (h : ∀ p ∈ headers, jsToLower (jsTrim p.1) = "x-forwarded-for" ∨
      jsToLower (jsTrim p.1) ∉ forwardHeaderNames) :
    defaultKeyGenerator headers = "unknown" := by
  have hfilter :
      headers.filter (fun p => jsToLower (jsTrim p.1) ∈ forwardHeaderNames) = [] := by
    apply List.filter_eq_nil_iff.mpr
    intro p hp
    rcases h p hp with h1 | h1
    · simp [h1, forwardHeaderNames]
    · simp [h1]
  simp [defaultKeyGenerator, hfilter]

/-- Claim C10 witness: a request whose only forwarding signal is the
standard `x-forwarded-for` header gets key "unknown". -/
theorem default_key_generator_unknown_witness :
    defaultKeyGenerator [("x-forwarded-for", "203.0.113.7")] = "unknown" :=
  default_key_generator_unknown [("x-forwarded-for", "203.0.113.7")] (by decide)

end ElysiaRateLimit
